import Mathlib

/-!
Verification development for the failover coordination core of the
primary/secondary batch-scheduler server pair (src/src/server/failover.c).

The C source is shallowly embedded: each C function that the properties
refer to becomes a pure Lean function over an explicit state record, with
the outside world (socket dials, stat results, script exit codes, clock
readings) supplied as oracle inputs.  File-static globals of failover.c
(`Secondary_state`, `sec_sock`, `hd_time`, `pbs_failover_active`, ...)
become fields of the state records.  Times are modelled as `Int`
(`time_t`), host identifiers as `Nat`.
-/

namespace Failover

/-! ## Basic enumerations and constants (from the #defines of failover.c) -/

/-- Secondary state, from the SECONDARY_STATE_* defines of failover.c. -/
inductive SecState
  | noconn   -- SECONDARY_STATE_noconn  (-1) not connected to Primary
  | conn     -- SECONDARY_STATE_conn     (0) connected to Primary
  | regsent  -- SECONDARY_STATE_regsent  (1) have sent register to Primary
  | handsk   -- SECONDARY_STATE_handsk   (3) receiving regular handshakes
  | nohsk    -- SECONDARY_STATE_nohsk    (4) handshakes have stopped coming
  | shutd    -- SECONDARY_STATE_shutd    (5) told to shut down
  | takeov   -- SECONDARY_STATE_takeov   (6) taking over from primary
  | inact    -- SECONDARY_STATE_inact    (7) told to go inactive/idle
  | idle     -- SECONDARY_STATE_idle     (8) idle until primary back up
deriving DecidableEq, Repr

/-- Numeric codes of the SECONDARY_STATE_* defines. -/
def SecState.code : SecState → Int
  | .noconn => -1
  | .conn => 0
  | .regsent => 1
  | .handsk => 3
  | .nohsk => 4
  | .shutd => 5
  | .takeov => 6
  | .inact => 7
  | .idle => 8

/-- HANDSHAKE_TIME from failover.c. -/
def HANDSHAKE_TIME : Int := 5

/-- Modelled from the spec: PBS error codes.  pbs_error.h is not under
src/; the spec distinguishes the generic *system-error* reply from the
*busy* (PBSE_OBJBUSY-equivalent) reply, so both are modelled as distinct
numeric codes. -/
def PBSE_SYSTEM : Nat := 15010

/-- Modelled from the spec: the *busy* reply code (PBSE_OBJBUSY). -/
def PBSE_OBJBUSY : Nat := 15054

/-- Modelled from the spec: the *unknown-request* reply code (PBSE_UNKREQ). -/
def PBSE_UNKREQ : Nat := 15005

/-! ## check_and_invoke_stonith (failover.c lines 824-929)

The filesystem and process environment seen by one invocation of the
fencing hook is an oracle record: the result of stat-ing the stonith
script, the exit code `system()` reports, and the outcomes of the four
fallible steps that read the captured output file back. -/

/-- Result of stat-ing PBS_HOME/server_priv/stonith. -/
inductive ScriptStat
  | statOk    -- stat succeeded, script is present
  | enoent    -- stat failed with errno == ENOENT: no script installed
  | otherErr  -- stat failed with some other errno (code falls through and runs the script)
deriving DecidableEq, Repr

/-- Environment of one check_and_invoke_stonith call. -/
structure StonithEnv where
  script : ScriptStat
  exitCode : Int    -- return of system(stonith_cmd)
  openOk : Bool     -- open(out_err_fl) succeeded
  fstatOk : Bool    -- fstat(fd) succeeded
  mallocOk : Bool   -- malloc(st_size+1) succeeded
  readOk : Bool     -- read(fd, ...) succeeded
deriving DecidableEq, Repr

/-- Three-valued fencing outcome of the spec (section 4.4): the C function
returns int 0 for both ok and absent, -1 for failed; the two 0-returning
paths are distinguishable by their log lines ("Skipping STONITH" versus
"STONITH script executed successfully"). -/
inductive FenceResult
  | ok      -- script present, ran, and the call returns 0
  | absent  -- no script installed (early return 0 at ENOENT)
  | failed  -- the call returns -1
deriving DecidableEq, Repr

/-- The capture read-back goes down a returning-(-1) error path: the
out_err file opened and fstat-ed but malloc or read failed
(failover.c lines 888-905). -/
def badCapture (e : StonithEnv) : Bool :=
  e.openOk && e.fstatOk && (!e.mallocOk || !e.readOk)

/-- Shallow embedding of check_and_invoke_stonith.  `node` is the hostname
argument (NULL modelled as `none`).  Mirrors the control flow of
failover.c lines 824-929:
a NULL node returns -1 at once; a stat failure with ENOENT returns 0
before running anything ("Skipping STONITH"); otherwise the script runs
(rc = system(...)), the output capture is read back - with malloc or
read failure returning -1 regardless of rc - and finally the function
returns -1 exactly when rc is non-zero. -/
def checkAndInvokeStonith (node : Option String) (e : StonithEnv) : FenceResult :=
  match node with
  | none => .failed
  | some _ =>
    if e.script = .enoent then .absent
    else if badCapture e then .failed
    else if e.exitCode ≠ 0 then .failed
    else .ok

/-- The int the C function actually returns. -/
def FenceResult.toInt : FenceResult → Int
  | .failed => -1
  | _ => 0

/-! ## The secondary state machine: be_secondary (failover.c lines 1028-1315)

One iteration of the while(1) loop is `secTick`.  The mutable state the
loop works on - the file statics `Secondary_state`, `sec_sock`, `hd_time`,
`pbs_failover_active` together with be_secondary's own locals that live
across iterations (`loop`, `sbloop`, `sbtime`, `mytime`) - is the record
`SecM`.  `marker` tracks whether the secondary_active file exists and
`serving` whether the process currently exercises the active role
(it is raised exactly when be_secondary returns 0, and lowered when the
PRIM_IS_BACK handler assigns SV_STATE_SECIDLE). -/

/-- State of the secondary process between loop iterations. -/
structure SecM where
  state : SecState
  secSock : Bool      -- sec_sock != -1
  hdTime : Int        -- hd_time
  sbtime : Int        -- last remembered svrlive mtime
  sbloop : Nat        -- count of ticks that saw the mtime advance
  mytime : Int        -- time_now at the last observed mtime advance
  loopCnt : Nat       -- the `loop` counter, ++ at the top of each iteration
  activeFlag : Bool   -- pbs_failover_active
  serving : Bool      -- process exercises the active role
  marker : Bool       -- the secondary_active file exists
  alive : Bool        -- the process has not exited
  done : Bool         -- be_secondary returned 0 (caller begins active init)
deriving DecidableEq, Repr

/-- Oracle inputs of one loop iteration. -/
structure TickO where
  timeNow : Int          -- time_now = time(0) at the top of the loop
  dialOk : Bool          -- client_to_svr / alt_conn succeeded
  addConnOk : Bool       -- add_conn returned non-NULL
  allocOk : Bool         -- alloc_br succeeded (conn state)
  sendOk : Bool          -- put_failover returned 0
  statRes : Option Int   -- stat(path_svrlive): some mtime, or none on failure
  fence : StonithEnv     -- environment of the stonith invocation, if reached
  markerWriteOk : Bool   -- fopen(path_secondaryact, "w") succeeded
  waitFail : Bool        -- the bottom-of-loop wait_request(1, NULL) returned -1
deriving DecidableEq, Repr

/-- Externally visible actions of one iteration. -/
inductive TAct
  | sleepT (n : Nat)     -- sleep(n)
  | waitT (n : Nat)      -- wait_request(n, NULL)
  | exitT (c : Nat)      -- exit(c)
  | fenceInvoke          -- check_and_invoke_stonith was called
  | writeMarker          -- the secondary_active file was created
  | returnActive         -- be_secondary returned 0
deriving DecidableEq, Repr

/-- The switch (Secondary_state) body of be_secondary, one dispatch.
`delay` is be_secondary's argument; `secondaryDelay` the (normalised)
global secondary_delay; `deadline` the takeov_on_nocontact local;
`primary` is pbs_conf.pbs_primary as passed to the stonith hook. -/
def secSwitch (delay secondaryDelay deadline : Int) (primary : Option String)
    (o : TickO) (m : SecM) : SecM × List TAct :=
  match m.state with
  | .noconn | .idle =>
    -- lines 1088-1135: reset the nohsk bookkeeping, close any old socket,
    -- redial the primary
    let m1 := { m with sbloop := 0, sbtime := 0, mytime := 0 }
    if !o.dialOk then
      if m1.state = .noconn ∧ (delay = -1 ∨ o.timeNow > deadline) then
        ({ m1 with secSock := false, state := .takeov }, [])
      else
        ({ m1 with secSock := false }, [.sleepT 10])
    else
      -- contact made: sec_sock holds the new descriptor even if add_conn
      -- fails (the code closes the fd but leaves sec_sock set)
      ({ m1 with secSock := true, state := .conn }, [])
  | .conn =>
    -- lines 1137-1157: send the register request
    if !o.allocOk then
      ({ m with state := .noconn, secSock := false }, [])
    else if o.sendOk then
      ({ m with state := .regsent }, [])
    else
      ({ m with state := .noconn, secSock := false }, [])
  | .regsent =>
    -- lines 1159-1162: waiting on the register reply, do nothing
    (m, [])
  | .handsk =>
    -- lines 1164-1174: steady state, watch the handshake age
    if o.timeNow ≥ m.hdTime + 2 * HANDSHAKE_TIME then
      ({ m with state := .nohsk }, [])
    else
      (m, [])
  | .nohsk =>
    -- lines 1176-1235: degraded, monitor the svrlive mtime
    match o.statRes with
    | some mt =>
      if mt > m.sbtime then
        -- mtime advancing: remember it; (sbloop++ > 4) tests the OLD value
        let m1 := { m with sbtime := mt, mytime := o.timeNow, sbloop := m.sbloop + 1 }
        if m.sbloop > 4 ∧ !m.secSock then
          ({ m1 with state := .noconn }, [])
        else
          (m1, [])
      else if o.timeNow > m.mytime + secondaryDelay then
        ({ m with state := .takeov }, [])
      else
        (m, [])
    | none =>
      if o.timeNow > m.hdTime + secondaryDelay then
        ({ m with state := .noconn }, [])
      else if !m.secSock ∧ m.loopCnt % 3 = 0 then
        if o.dialOk then
          ({ m with secSock := true, state := .conn }, [])
        else
          (m, [])
      else
        (m, [])
  | .shutd =>
    -- line 1237-1238: exit(0)
    ({ m with alive := false }, [.exitT 0])
  | .takeov =>
    -- lines 1240-1286: close any lingering socket, dial the primary one
    -- last time, then fence and (on success) go active
    let m1 := if m.secSock then { m with secSock := false } else m
    if o.dialOk then
      ({ m1 with secSock := true, state := .conn }, [])
    else
      let rc := checkAndInvokeStonith primary o.fence
      if rc = .failed then
        (m1, [.fenceInvoke, .sleepT 10])
      else
        ({ m1 with activeFlag := true, serving := true,
                   marker := (if o.markerWriteOk then true else m1.marker),
                   done := true },
         [.fenceInvoke] ++ (if o.markerWriteOk then [.writeMarker] else [])
           ++ [.returnActive])
  | .inact =>
    -- lines 1288-1303: wait for the primary to close, then go idle
    ({ m with secSock := false, state := .idle }, [.waitT 600, .sleepT 10])

/-- One full iteration of the be_secondary while(1) loop: bump `loop`,
dispatch on the state, then (unless the iteration returned or exited)
run the bottom-of-loop `wait_request(1, NULL)` check that drops to
noconn on failure (lines 1306-1310). -/
def secTick (delay secondaryDelay deadline : Int) (primary : Option String)
    (o : TickO) (m : SecM) : SecM × List TAct :=
  if !m.alive || m.done then (m, [])
  else
    let m0 := { m with loopCnt := m.loopCnt + 1 }
    let r := secSwitch delay secondaryDelay deadline primary o m0
    if r.1.done || !r.1.alive then r
    else if o.waitFail then
      ({ r.1 with state := .noconn, secSock := false }, r.2)
    else
      r

/-- Startup computation of be_secondary (lines 1052-1072): normalise a
configured secondary_delay of -1 to 0, and fix the takeover deadline
takeov_on_nocontact = hd_time + 60*5 + secondary_delay once, where
hd_time was set to time(0) at entry. -/
def beSecondarySetup (cfgDelay startTime : Int) : Int × Int :=
  let d := if cfgDelay = -1 then 0 else cfgDelay
  (d, startTime + 60 * 5 + d)

/-- Initial secondary machine state at entry to the loop: the statics
start as Secondary_state = noconn, sec_sock = -1, pbs_failover_active = 0,
and hd_time = time(0) (line 1052). -/
def initSecM (startTime : Int) : SecM :=
  { state := .noconn, secSock := false, hdTime := startTime,
    sbtime := 0, sbloop := 0, mytime := 0, loopCnt := 0,
    activeFlag := false, serving := false, marker := false,
    alive := true, done := false }

/-! ## req_failover (failover.c lines 410-557)

Serves both roles: on the primary it handles REGISTER (dispatched like any
request); on the secondary it handles the control messages arriving through
read_fo_request.  Its context bundles the secondary-side machine state with
the primary-side statics (`Secondary_connection`, the connection-table
entries involved, `saved_takeover_req`). -/

/-- Tags of the failover request (FAILOVER_* of libpbs.h; the header is
not under src/, so the tags are modelled as an enumeration plus an
`invalid` constructor for the default case of the switch). -/
inductive FoTag
  | register
  | handshake
  | primIsBack
  | secdShutdown
  | secdGoInactive
  | secdTakeOver
  | invalid (n : Nat)
deriving DecidableEq, Repr

/-- Read-callback installed on a connection (the cn_func field). -/
inductive CnFunc
  | processRequest
  | processDreply
  | readFoRequest
  | readRegReply
deriving DecidableEq, Repr

/-- The fields of a connection-table entry that req_failover touches. -/
structure ConnEntry where
  noTimeout : Bool          -- cn_authen has PBS_NET_CONN_NOTIMEOUT
  authenticated : Bool      -- cn_authen has PBS_NET_CONN_AUTHENTICATED
  func : CnFunc             -- cn_func
  hasCloseSecondary : Bool  -- close_secondary registered via net_add_close_func
deriving DecidableEq, Repr

/-- Context on which req_failover acts. -/
structure FoCtx where
  sec : SecM
  secondaryConnection : Option Nat  -- Secondary_connection handle (-1 = none)
  peerConn : ConnEntry              -- entry of the already-registered peer, if any
  reqConn : ConnEntry               -- entry of the connection carrying this request
  savedTakeoverReq : Bool           -- saved_takeover_req holds the PRIM_IS_BACK request
deriving DecidableEq, Repr

/-- Externally visible actions of one req_failover call, in program order. -/
inductive FoAct
  | reject (code : Nat)     -- req_reject(code, 0, preq)
  | replyAck                -- reply_send of the zero-code acknowledgement
  | replyText (hid : Nat)   -- reply_text(preq, PBSE_NONE, "<hostid>")
  | setState (s : SecState) -- assignment to Secondary_state
  | sleepF (n : Nat)        -- sleep(n)
  | waitF (n : Nat)         -- wait_request(n, NULL)
  | closeSock               -- close_conn(sec_sock); sec_sock = -1
  | exitZero                -- exit(0)
  | unlinkMarker            -- unlink(path_secondaryact)
deriving DecidableEq, Repr

/-- Shallow embedding of req_failover.  `hostid` is the primary's
hostidnum, `now` the wall clock for the hd_time update, `newHandle` the
handle socket_to_handle would yield for the registering connection,
`connFound` whether get_conn found the request's connection.  Returns the
updated context and the ordered action trace.  Modelled from the spec
where the callee is outside src/: req_reject replies with its given error
code, reply_send delivers the zero-code acknowledgement. -/
def reqFailover (hostid : Nat) (now : Int) (newHandle : Nat) (connFound : Bool)
    (tag : FoTag) (c : FoCtx) : FoCtx × List FoAct :=
  if !connFound then
    -- lines 419-423: no connection entry, reject with PBSE_SYSTEM
    (c, [.reject PBSE_SYSTEM])
  else
    match tag with
    | .register =>
      match c.secondaryConnection with
      | some _ =>
        -- lines 440-447: a peer is already registered: err = PBSE_OBJBUSY,
        -- break; the post-switch error path sends req_reject(PBSE_SYSTEM)
        (c, [.reject PBSE_SYSTEM])
      | none =>
        -- lines 448-466: mark non-expiring, record the handle, rewire the
        -- read callback, register close_secondary, reply the hostid text
        ({ c with
             secondaryConnection := some newHandle,
             reqConn := { c.reqConn with
                            noTimeout := true,
                            func := .processDreply,
                            hasCloseSecondary := true } },
         [.replyText hostid])
    | .handshake =>
      -- lines 472-478 then the common acknowledgement (lines 550-554)
      let st := if c.sec.state = .nohsk then SecState.handsk else c.sec.state
      ({ c with sec := { c.sec with hdTime := now, state := st } },
       (if c.sec.state = .nohsk then [.setState .handsk] else []) ++ [.replyAck])
    | .primIsBack =>
      -- lines 480-492 then lines 531-536: go SECIDLE, unlink the marker,
      -- save the request for a delayed acknowledgement
      ({ c with
           sec := { c.sec with serving := false, marker := false },
           savedTakeoverReq := true },
       [.unlinkMarker])
    | .secdShutdown =>
      -- lines 498-507: acknowledge, then exit(0)
      ({ c with sec := { c.sec with alive := false } }, [.replyAck, .exitZero])
    | .secdGoInactive =>
      -- lines 509-512 then the common acknowledgement
      ({ c with sec := { c.sec with state := .inact } },
       [.setState .inact, .replyAck])
    | .secdTakeOver =>
      -- lines 514-517: sleep(10) and set the state, BEFORE the
      -- acknowledgement of lines 537-549, which is followed by
      -- wait_request(600) and the close of sec_sock
      ({ c with sec := { c.sec with state := .takeov, secSock := false } },
       [.sleepF 10, .setState .takeov, .replyAck, .waitF 600]
         ++ (if c.sec.secSock then [.closeSock] else []))
    | .invalid _ =>
      -- lines 519-521 then 525-526: err = 1, reject with PBSE_SYSTEM
      (c, [.reject PBSE_SYSTEM])

/-! ## read_fo_request (failover.c lines 571-618) -/

/-- Result of dis_request_read as seen by read_fo_request. -/
inductive ReadRes
  | okRead    -- rc == 0, request decoded
  | eofRead   -- rc == -1, EOF / socket closed
  | errRead   -- any other rc: read or decode error
deriving DecidableEq, Repr

/-- Externally visible actions of read_fo_request before any dispatch. -/
inductive RAct
  | closeC     -- close_conn(conn); sec_sock = -1
  | freeReq    -- free_br(request)
  | dispatch   -- req_failover(request) is invoked
deriving DecidableEq, Repr

/-- Outcome of read_fo_request short of the dispatched handler. -/
structure RFR where
  state : SecState
  sockCleared : Bool
  acts : List RAct
deriving DecidableEq, Repr

/-- Shallow embedding of read_fo_request.  On allocation failure: noconn,
close.  On EOF: keep inact and noconn unchanged, otherwise go nohsk;
close and free.  On any other read/decode error: noconn unconditionally;
close and free.  On success: dispatch to req_failover. -/
def readFoRequest (allocOk : Bool) (rr : ReadRes) (st : SecState) : RFR :=
  if !allocOk then
    { state := .noconn, sockCleared := true, acts := [.closeC] }
  else
    match rr with
    | .eofRead =>
      { state := if st = .inact ∨ st = .noconn then st else .nohsk,
        sockCleared := true, acts := [.closeC, .freeReq] }
    | .errRead =>
      { state := .noconn, sockCleared := true, acts := [.closeC, .freeReq] }
    | .okRead =>
      { state := st, sockCleared := false, acts := [.dispatch] }

/-! ## read_reg_reply (failover.c lines 649-746) -/

/-- Result of DIS_reply_read: 0, DIS_EOD, or some other DIS error. -/
inductive RRrc
  | okR
  | eodR
  | errR
deriving DecidableEq, Repr

/-- The brp_choice discriminator of the decoded reply. -/
inductive BrpChoice
  | nullChoice
  | textChoice
deriving DecidableEq, Repr

/-- Inputs of one read_reg_reply call.  The decimal text payload of the
register reply is abstracted as its list of base-10 digits (little-endian,
as produced by Nat.digits); atol is Nat.ofDigits 10. -/
structure RegReplyIn where
  rc : RRrc
  brpCode : Nat
  choice : BrpChoice
  payload : Option (List Nat)  -- brp_str: none models a NULL string
  connFound : Bool             -- get_conn(sock) found the entry
  openOk : Bool                -- open(license.fo, ...) succeeded
  writeOk : Bool               -- write(fd, &hid, sizeof) wrote sizeof bytes
  now : Int                    -- time(0) for the hd_time update
deriving DecidableEq, Repr

/-- One recorded write of the license.fo file. -/
structure FileWrite where
  creatTrunc : Bool   -- opened O_WRONLY|O_CREAT|O_TRUNC
  mode : Nat          -- permission bits of the open
  content : Nat       -- the 8-byte hostid value written
deriving DecidableEq, Repr

/-- Outcome of read_reg_reply. -/
structure RegReplyOut where
  state : SecState
  hdTime : Int
  goidleAck : Bool
  cnFunc : CnFunc            -- read callback of the socket afterwards
  writes : List FileWrite    -- completed writes of license.fo
  exited : Option Nat        -- some c when the call runs exit(c)
deriving DecidableEq, Repr

/-- Shallow embedding of read_reg_reply in the secondary's registration
role.  `ownHid` is pbs_get_hostid() of this host, `goidleAck` the static
goidle_ack flag, `st`/`hdTime` the incoming Secondary_state and hd_time.
Mirrors lines 649-746: a non-zero rc or reply code either moves regsent
to takeov on EOF or exits(1); with goidle_ack set an ok reply merely
clears the flag; an ok reply without text goes back to noconn (the
PBSE_UNKREQ exit branch is unreachable there since brp_code is 0); an ok
text reply XORs the parsed hostid with our own, rewires the socket to
read_fo_request, advances to handsk, stamps hd_time, and persists the
value to license.fo (O_WRONLY|O_CREAT|O_TRUNC, mode 0600), exiting(1) if
the open or the write fails. -/
def readRegReply (ownHid : Nat) (goidleAck : Bool) (st : SecState) (hdTime : Int)
    (i : RegReplyIn) : RegReplyOut :=
  if i.rc ≠ .okR ∨ i.brpCode ≠ 0 then
    if i.rc = .eodR ∧ st = .regsent then
      { state := .takeov, hdTime := hdTime, goidleAck := goidleAck,
        cnFunc := .readRegReply, writes := [], exited := none }
    else
      { state := st, hdTime := hdTime, goidleAck := goidleAck,
        cnFunc := .readRegReply, writes := [], exited := some 1 }
  else if goidleAck then
    { state := st, hdTime := hdTime, goidleAck := false,
      cnFunc := .readRegReply, writes := [], exited := none }
  else if i.choice ≠ .textChoice ∨ i.payload = none then
    if i.brpCode = PBSE_UNKREQ then
      { state := st, hdTime := hdTime, goidleAck := goidleAck,
        cnFunc := .readRegReply, writes := [], exited := some 1 }
    else
      { state := .noconn, hdTime := hdTime, goidleAck := goidleAck,
        cnFunc := .readRegReply, writes := [], exited := none }
  else if !i.connFound then
    { state := st, hdTime := hdTime, goidleAck := goidleAck,
      cnFunc := .readRegReply, writes := [], exited := some 1 }
  else
    let hid := Nat.ofDigits 10 (i.payload.getD []) ^^^ ownHid
    if i.openOk && i.writeOk then
      { state := .handsk, hdTime := i.now, goidleAck := goidleAck,
        cnFunc := .readFoRequest,
        writes := [{ creatTrunc := true, mode := 0o600, content := hid }],
        exited := none }
    else
      -- open or write failure: "unable to save Primary hostid", exit(1);
      -- the state, hd_time and cn_func assignments happened just before
      { state := .handsk, hdTime := i.now, goidleAck := goidleAck,
        cnFunc := .readFoRequest, writes := [], exited := some 1 }

/-! ## Interleaved two-process system

The primary controller (primary_handshake, takeover_from_secondary,
process supervision) and the secondary state machine run in separate
processes; their interleaving is modelled as a step function over a
combined state, one event per atomic handler execution.  The secondary's
code is the embedding above; the primary-side steps are modelled from
failover.c (primary_handshake, takeover_from_secondary) and - where the
code lives outside src/ (pbsd_main's supervision and quiesce logic) -
from the spec sections 4.2, 4.5 and 4.6. -/

/-- Static configuration of one interleaved execution. -/
structure Params where
  delay : Int            -- be_secondary's argument
  secondaryDelay : Int   -- the (normalised) global secondary_delay
  deadline : Int         -- takeov_on_nocontact
  primary : Option String  -- pbs_conf.pbs_primary
  hostid : Nat           -- the primary's hostidnum
  ownHid : Nat           -- the secondary's pbs_get_hostid()

/-- Combined state of the two processes and the shared files/channel. -/
structure Sys where
  primAlive : Bool    -- the primary process is running
  primServing : Bool  -- the primary reports the active role
  reclaiming : Bool   -- the primary restarted into takeover_from_secondary
  pibSent : Bool      -- a PRIM_IS_BACK request has been delivered
  pibAcked : Bool     -- the secondary acknowledged PRIM_IS_BACK after quiescing
  chan : Bool         -- the registered control channel is established
  sec : SecM
deriving DecidableEq, Repr

/-- Connection-table entry with nothing set, used where the entry's
fields are irrelevant to the secondary-side handlers. -/
def dummyConn : ConnEntry :=
  { noTimeout := false, authenticated := false,
    func := .processRequest, hasCloseSecondary := false }

/-- req_failover context of the secondary process. -/
def secCtx (m : SecM) : FoCtx :=
  { sec := m, secondaryConnection := none, peerConn := dummyConn,
    reqConn := dummyConn, savedTakeoverReq := false }

/-- Control messages the primary emits over the registered channel
(PRIM_IS_BACK travels over the reclaim dial instead, REGISTER only
secondary-to-primary). -/
def primarySendable : FoTag → Bool
  | .handshake => true
  | .secdShutdown => true
  | .secdGoInactive => true
  | .secdTakeOver => true
  | _ => false

/-- Events of the interleaved system. -/
inductive Ev
  | secTick (o : TickO)        -- one iteration of the be_secondary loop
  | secCtrl (tag : FoTag) (rr : ReadRes) (allocOk : Bool) (now : Int)
      -- read_fo_request fires on the channel and may dispatch req_failover
  | secRegReply (i : RegReplyIn)  -- read_reg_reply fires on the socket
  | primAcceptRegister         -- the primary accepts the REGISTER request
  | primCrash                  -- the primary process dies
  | primRecycleOnMarker        -- primary_handshake sees secondary_active and recycles
  | primRestartReclaim         -- supervisor restarts the primary; marker seen
  | primBootActive             -- supervisor restarts the primary; no marker
  | primSendPIB                -- takeover_from_secondary dials and sends PRIM_IS_BACK
  | secHandlePIB (now : Int)   -- the secondary handles PRIM_IS_BACK, quiesces, acks
  | primGoActive               -- takeover_from_secondary saw the ack; primary goes active
deriving Repr

/-- One interleaving step. -/
def stepSys (p : Params) (s : Sys) (e : Ev) : Sys :=
  match e with
  | .secTick o =>
    if s.sec.alive then
      let m := (secTick p.delay p.secondaryDelay p.deadline p.primary o s.sec).1
      { s with sec := m, chan := s.chan && m.secSock }
    else s
  | .secCtrl tag rr allocOk now =>
    if s.chan && s.primAlive && s.sec.alive && !s.sec.done && primarySendable tag then
      let r := readFoRequest allocOk rr s.sec.state
      if r.sockCleared then
        { s with sec := { s.sec with state := r.state, secSock := false },
                 chan := false }
      else
        let m := (reqFailover p.hostid now 0 true tag (secCtx s.sec)).1.sec
        { s with sec := m, chan := s.chan && m.secSock }
    else s
  | .secRegReply i =>
    if s.sec.alive && !s.sec.done && s.sec.secSock then
      let r := readRegReply p.ownHid false s.sec.state s.sec.hdTime i
      { s with sec := { s.sec with state := r.state, hdTime := r.hdTime,
                                   alive := !r.exited.isSome },
               chan := s.chan && !r.exited.isSome }
    else s
  | .primAcceptRegister =>
    if s.primAlive && s.sec.alive && s.sec.secSock && s.sec.state = .regsent
        && !s.chan then
      { s with chan := true }
    else s
  | .primCrash =>
    if s.primAlive then
      { s with primAlive := false, primServing := false, reclaiming := false,
               pibSent := false, chan := false }
    else s
  | .primRecycleOnMarker =>
    -- primary_handshake lines 230-236: with a registered secondary, a stat
    -- of secondary_active sets SV_STATE_SECIDLE and the server recycles
    if s.primAlive && s.primServing && s.chan && s.sec.marker then
      { s with primAlive := false, primServing := false, chan := false }
    else s
  | .primRestartReclaim =>
    -- Modelled from the spec (section 4.2): the restarted primary sees the
    -- marker at boot and enters takeover_from_secondary
    if !s.primAlive && s.sec.marker then
      { s with primAlive := true, primServing := false, reclaiming := true,
               pibSent := false, pibAcked := false }
    else s
  | .primBootActive =>
    -- Modelled from the spec (section 4.2): no marker at boot, the primary
    -- starts as the active server
    if !s.primAlive && !s.sec.marker then
      { s with primAlive := true, primServing := true, reclaiming := false }
    else s
  | .primSendPIB =>
    -- takeover_from_secondary lines 976-999: dial the secondary (needs a
    -- live listener) and send PRIM_IS_BACK
    if s.primAlive && s.reclaiming && s.sec.alive then
      { s with pibSent := true }
    else s
  | .secHandlePIB now =>
    -- req_failover's PRIM_IS_BACK case; the acknowledgement of the saved
    -- request is modelled from the spec (section 4.6): it is sent only
    -- after the secondary has quiesced (SV_STATE_SECIDLE, marker removed)
    if s.pibSent && s.sec.alive then
      let m := (reqFailover p.hostid now 0 true .primIsBack (secCtx s.sec)).1.sec
      { s with sec := m, pibSent := false, pibAcked := true }
    else s
  | .primGoActive =>
    -- takeover_from_secondary lines 999-1010: goidle_ack cleared by the
    -- reply, the primary proceeds to full active initialisation
    if s.primAlive && s.reclaiming && s.pibAcked then
      { s with primServing := true, reclaiming := false }
    else s

/-- Both processes report the active role at once. -/
def bothActive (s : Sys) : Bool :=
  s.primAlive && s.primServing && s.sec.alive && s.sec.serving

/-- The fencing hook is invoked by this event: the takeov arm of the
secondary loop runs and its final dial to the primary failed. -/
def fenceInvoked (s : Sys) : Ev → Bool
  | .secTick o => s.sec.alive && !s.sec.done && s.sec.state = .takeov && !o.dialOk
  | _ => false

/-- The C caller's test `if (rc)` on the hook's return: takeover proceeds
exactly when the result is not failed (ok or absent). -/
def FenceResult.proceeds : FenceResult → Bool
  | .failed => false
  | _ => true

/-- The fencing outcome this event's oracle yields. -/
def fenceOutcome (p : Params) : Ev → FenceResult
  | .secTick o => checkAndInvokeStonith p.primary o.fence
  | _ => .failed

/-- Honesty in the literal sense of the claim: the hook returns *ok* only
after the peer process is down (an *absent* outcome is unconstrained). -/
def literalHonestStep (p : Params) (s : Sys) (e : Ev) : Bool :=
  !(fenceInvoked s e && (fenceOutcome p e == .ok)) || !s.primAlive

/-- Strengthened honesty: the fencing step lets the takeover proceed
(*ok* or *absent*) only when the peer process is down. -/
def honestStep (p : Params) (s : Sys) (e : Ev) : Bool :=
  !(fenceInvoked s e && (fenceOutcome p e).proceeds) || !s.primAlive

/-- The filesystem does not fail the active-marker write. -/
def faultFree : Ev → Bool
  | .secTick o => o.markerWriteOk
  | _ => true

/-- Run an event list. -/
def runSys (p : Params) (s : Sys) : List Ev → Sys
  | [] => s
  | e :: t => runSys p (stepSys p s e) t

/-- Every step of the run is literally honest. -/
def literalHonestRun (p : Params) (s : Sys) : List Ev → Bool
  | [] => true
  | e :: t => literalHonestStep p s e && literalHonestRun p (stepSys p s e) t

/-- Every step of the run satisfies the strengthened honesty. -/
def honestRun (p : Params) (s : Sys) : List Ev → Bool
  | [] => true
  | e :: t => honestStep p s e && honestRun p (stepSys p s e) t

/-- No state along the run (including the last) has both processes
reporting active. -/
def allSafe (p : Params) (s : Sys) : List Ev → Bool
  | [] => !bothActive s
  | e :: t => !bothActive s && allSafe p (stepSys p s e) t

/-- Initial system state: the primary is up and active, the secondary
enters be_secondary. -/
def initSys (startTime : Int) : Sys :=
  { primAlive := true, primServing := true, reclaiming := false,
    pibSent := false, pibAcked := false, chan := false,
    sec := initSecM startTime }

/-! ## The split-brain invariant and concrete instances -/

/-- Inductive invariant of the interleaved system: an active reporter is a
live process; a serving secondary has its marker on disk; once the
secondary has acknowledged PRIM_IS_BACK to a live reclaiming primary it
is no longer serving; and the two processes never both report active. -/
def SysInv (s : Sys) : Prop :=
  (s.primServing = true → s.primAlive = true) ∧
  (s.sec.serving = true → s.sec.marker = true) ∧
  (s.pibAcked = true → s.reclaiming = true → s.primAlive = true →
     s.sec.serving = false) ∧
  bothActive s = false

/-- A stonith environment with no script installed. -/
def benignFence : StonithEnv :=
  { script := .enoent, exitCode := 0, openOk := false, fstatOk := false,
    mallocOk := false, readOk := false }

/-- A stonith environment where the script is present, runs, exits zero,
but the read-back of its captured output fails. -/
def badCapEnv : StonithEnv :=
  { script := .statOk, exitCode := 0, openOk := true, fstatOk := true,
    mallocOk := true, readOk := false }

/-- A tick oracle: dial to the primary fails (network partition), clock
well past any deadline, no fencing script installed. -/
def cexTick : TickO :=
  { timeNow := 1000, dialOk := false, addConnOk := false, allocOk := false,
    sendOk := false, statRes := none, fence := benignFence,
    markerWriteOk := true, waitFail := false }

/-- A tick oracle where the dial succeeds. -/
def witTick : TickO :=
  { timeNow := 0, dialOk := true, addConnOk := true, allocOk := true,
    sendOk := true, statRes := none, fence := benignFence,
    markerWriteOk := true, waitFail := false }

/-- Configuration: secondary_delay 30s, takeover deadline at start+330s. -/
def cexParams : Params :=
  { delay := 30, secondaryDelay := 30, deadline := 330,
    primary := some "prim.example", hostid := 11, ownHid := 7 }

/-- Two loop iterations of the partitioned secondary: the first moves
NOCONN to TAKEOV (deadline passed), the second fences (absent) and goes
active while the primary is still alive and active. -/
def cexTrace : List Ev := [.secTick cexTick, .secTick cexTick]

/-- A primary-side context in which a secondary peer is already
registered (Secondary_connection holds handle 3). -/
def regBusyCtx : FoCtx :=
  { sec := initSecM 0, secondaryConnection := some 3,
    peerConn := { noTimeout := true, authenticated := true,
                  func := .processDreply, hasCloseSecondary := true },
    reqConn := dummyConn, savedTakeoverReq := false }

/-- The machine state of a secondary that has taken over: active flag
raised, serving, marker file on disk. -/
def activeSecM : SecM :=
  { state := .takeov, secSock := true, hdTime := 0, sbtime := 0, sbloop := 0,
    mytime := 0, loopCnt := 5, activeFlag := true, serving := true,
    marker := true, alive := true, done := true }

/-- Context of an active secondary receiving a control request. -/
def activeCtx : FoCtx :=
  { sec := activeSecM, secondaryConnection := none, peerConn := dummyConn,
    reqConn := dummyConn, savedTakeoverReq := false }

/-- Context of a passive secondary in steady state with an open socket. -/
def takeCtx : FoCtx :=
  { sec := { initSecM 0 with state := .handsk, secSock := true },
    secondaryConnection := none, peerConn := dummyConn,
    reqConn := dummyConn, savedTakeoverReq := false }

/-- A register-reply read that hits EOF. -/
def eodIn : RegReplyIn :=
  { rc := .eodR, brpCode := 0, choice := .nullChoice, payload := none,
    connFound := true, openOk := true, writeOk := true, now := 99 }

/-- A successful register reply carrying the primary hostid 12 as the
decimal text "12" (digit list [2, 1], little-endian). -/
def okIn : RegReplyIn :=
  { rc := .okR, brpCode := 0, choice := .textChoice, payload := some [2, 1],
    connFound := true, openOk := true, writeOk := true, now := 55 }

/-- A secondary in NOHSK that remembers svrlive mtime 17 (last seen
advancing at local time 100). -/
def nohskM : SecM :=
  { initSecM 0 with state := .nohsk, sbtime := 17, mytime := 100 }

/-- A tick oracle in which the svrlive stat returns the unchanged mtime
17 at local time 131. -/
def nohskTick : TickO :=
  { timeNow := 131, dialOk := false, addConnOk := false, allocOk := false,
    sendOk := false, statRes := some 17, fence := benignFence,
    markerWriteOk := true, waitFail := false }

/-- A secondary in NOCONN. -/
def noconnM : SecM := initSecM 0

/-- A secondary in TAKEOV whose socket is closed. -/
def takeovM : SecM := { initSecM 0 with state := .takeov }

/-- A tick oracle whose dial fails at time 400 with the failing-capture
stonith environment. -/
def badCapTick : TickO :=
  { timeNow := 400, dialOk := false, addConnOk := false, allocOk := false,
    sendOk := false, statRes := none, fence := badCapEnv,
    markerWriteOk := true, waitFail := false }

/-! ## Helper lemmas about the secondary tick -/

theorem FenceResult.proceeds_iff (r : FenceResult) :
    r.proceeds = true ↔ r ≠ .failed := by
  cases r <;> simp [FenceResult.proceeds]

/-- One dispatch of the switch either leaves the role fields (serving,
activeFlag, marker) untouched, or it is the successful takeover arm:
state takeov, the last dial failed, the fencing hook let it proceed, and
the role fields are raised. -/
theorem secSwitch_cases (d sd dl : Int) (pr : Option String) (o : TickO) (m : SecM) :
    ((secSwitch d sd dl pr o m).1.serving = m.serving ∧
     (secSwitch d sd dl pr o m).1.activeFlag = m.activeFlag ∧
     (secSwitch d sd dl pr o m).1.marker = m.marker) ∨
    (m.state = .takeov ∧ o.dialOk = false ∧
     (checkAndInvokeStonith pr o.fence).proceeds = true ∧
     (secSwitch d sd dl pr o m).1.serving = true ∧
     (secSwitch d sd dl pr o m).1.activeFlag = true ∧
     (secSwitch d sd dl pr o m).1.marker = (o.markerWriteOk || m.marker)) := by
  obtain ⟨tn, dok, aok, alok, sok, sres, fe, mwk, wf⟩ := o
  obtain ⟨st, sock, hd, sbt, sbl, myt, lc, af, srv, mk, al, dn⟩ := m
  rcases sres with _ | mt <;> cases st <;> cases sock <;> cases mwk <;>
    simp [secSwitch] <;> split_ifs <;> simp_all [FenceResult.proceeds_iff]

/-- The switch never resurrects a process that exited. -/
theorem secSwitch_alive_mono (d sd dl : Int) (pr : Option String) (o : TickO)
    (m : SecM) (h : (secSwitch d sd dl pr o m).1.alive = true) :
    m.alive = true := by
  obtain ⟨tn, dok, aok, alok, sok, sres, fe, mwk, wf⟩ := o
  obtain ⟨st, sock, hd, sbt, sbl, myt, lc, af, srv, mk, al, dn⟩ := m
  rcases sres with _ | mt <;> cases st <;> cases sock <;>
    simp [secSwitch] at h <;> (try split_ifs at h) <;> simp_all

/-- The post-switch bookkeeping of a live iteration (the bottom-of-loop
wait_request check) only touches state and secSock: the role and liveness
fields of the tick are those of the switch. -/
theorem secTick_eq (d sd dl : Int) (pr : Option String) (o : TickO) (m : SecM)
    (hal : m.alive = true) (hdn : m.done = false) :
    (secTick d sd dl pr o m).1.serving
        = (secSwitch d sd dl pr o { m with loopCnt := m.loopCnt + 1 }).1.serving
  ∧ (secTick d sd dl pr o m).1.activeFlag
        = (secSwitch d sd dl pr o { m with loopCnt := m.loopCnt + 1 }).1.activeFlag
  ∧ (secTick d sd dl pr o m).1.marker
        = (secSwitch d sd dl pr o { m with loopCnt := m.loopCnt + 1 }).1.marker
  ∧ (secTick d sd dl pr o m).1.alive
        = (secSwitch d sd dl pr o { m with loopCnt := m.loopCnt + 1 }).1.alive := by
  simp only [secTick, hal, hdn, Bool.not_true, Bool.false_or, if_false]
  split_ifs <;> simp_all

/-- A tick never resurrects a process that exited. -/
theorem secTick_alive_mono (d sd dl : Int) (pr : Option String) (o : TickO)
    (m : SecM) (h : (secTick d sd dl pr o m).1.alive = true) :
    m.alive = true := by
  cases hma : m.alive
  · have hc : (!m.alive || m.done) = true := by simp [hma]
    simp [secTick, hc, hma] at h
  · rfl

/-- Tick-level version of secSwitch_cases: a live, not-yet-returned tick
either leaves the role fields alone or performs the takeover. -/
theorem secTick_cases (d sd dl : Int) (pr : Option String) (o : TickO) (m : SecM) :
    ((secTick d sd dl pr o m).1.serving = m.serving ∧
     (secTick d sd dl pr o m).1.activeFlag = m.activeFlag ∧
     (secTick d sd dl pr o m).1.marker = m.marker) ∨
    (m.alive = true ∧ m.done = false ∧ m.state = .takeov ∧ o.dialOk = false ∧
     (checkAndInvokeStonith pr o.fence).proceeds = true ∧
     (secTick d sd dl pr o m).1.serving = true ∧
     (secTick d sd dl pr o m).1.activeFlag = true ∧
     (secTick d sd dl pr o m).1.marker = (o.markerWriteOk || m.marker)) := by
  by_cases hc : (!m.alive || m.done) = true
  · left; simp [secTick, hc]
  · have hal : m.alive = true := by cases h : m.alive <;> simp [h] at hc ⊢
    have hdn : m.done = false := by cases h : m.done <;> simp [h, hal] at hc ⊢
    obtain ⟨q1, q2, q3, _⟩ := secTick_eq d sd dl pr o m hal hdn
    rcases secSwitch_cases d sd dl pr o { m with loopCnt := m.loopCnt + 1 } with
      ⟨e1, e2, e3⟩ | ⟨c1, c2, c3, c4, c5, c6⟩
    · left
      refine ⟨?_, ?_, ?_⟩ <;> simp_all
    · right
      refine ⟨hal, hdn, ?_, c2, c3, ?_, ?_, ?_⟩ <;> simp_all

/-- The secondary-bound control messages never touch the role fields, and
can only lower the liveness flag. -/
theorem reqFailover_sendable_role (h : Nat) (now : Int) (nh : Nat) (tag : FoTag)
    (m : SecM) (hp : primarySendable tag = true) :
    ((reqFailover h now nh true tag (secCtx m)).1.sec.serving = m.serving) ∧
    ((reqFailover h now nh true tag (secCtx m)).1.sec.marker = m.marker) ∧
    ((reqFailover h now nh true tag (secCtx m)).1.sec.activeFlag = m.activeFlag) ∧
    ((reqFailover h now nh true tag (secCtx m)).1.sec.alive = true → m.alive = true) := by
  cases tag <;> simp [primarySendable] at hp <;> simp [reqFailover, secCtx]

/-- The PRIM_IS_BACK handler: SV_STATE_SECIDLE (the role is surrendered)
and the marker file is unlinked; nothing else of the machine changes. -/
theorem reqFailover_pib (h : Nat) (now : Int) (nh : Nat) (m : SecM) :
    (reqFailover h now nh true .primIsBack (secCtx m)).1.sec
      = { m with serving := false, marker := false } := by
  simp [reqFailover, secCtx]

theorem sysInv_init (t : Int) : SysInv (initSys t) := by
  simp [SysInv, initSys, initSecM, bothActive]

/-- Updating the secondary machine (and the channel) preserves the
invariant when the role fields are untouched and liveness only drops. -/
theorem sysInv_sec_same (s : Sys) (M : SecM) (C : Bool) (h : SysInv s)
    (hsv : M.serving = s.sec.serving) (hmk : M.marker = s.sec.marker)
    (hav : M.alive = true → s.sec.alive = true) :
    SysInv { s with sec := M, chan := C } := by
  obtain ⟨h1, h2, h3, h4⟩ := h
  simp only [bothActive] at h4
  refine ⟨h1, ?_, ?_, ?_⟩
  · show M.serving = true → M.marker = true
    intro hx; rw [hsv] at hx; rw [hmk]; exact h2 hx
  · show s.pibAcked = true → s.reclaiming = true → s.primAlive = true →
      M.serving = false
    intro a b c; rw [hsv]; exact h3 a b c
  · show (s.primAlive && s.primServing && M.alive && M.serving) = false
    cases hma : M.alive
    · simp
    · have hsa := hav hma
      rw [hsv]; rw [hsa] at h4; exact h4

/-- Updating the secondary machine preserves the invariant when the
primary process is down, whatever the secondary's new role fields
(provided a raised role has its marker). -/
theorem sysInv_sec_act (s : Sys) (M : SecM) (C : Bool) (h : SysInv s)
    (hpa : s.primAlive = false) (hmk : M.serving = true → M.marker = true) :
    SysInv { s with sec := M, chan := C } := by
  obtain ⟨h1, _, _, _⟩ := h
  refine ⟨h1, hmk, ?_, ?_⟩
  · show s.pibAcked = true → s.reclaiming = true → s.primAlive = true →
      M.serving = false
    intro _ _ hc; rw [hpa] at hc; cases hc
  · show (s.primAlive && s.primServing && M.alive && M.serving) = false
    simp [hpa]

theorem andE {a b : Bool} (h : (a && b) = true) : a = true ∧ b = true := by
  simp only [Bool.and_eq_true] at h; exact h

/-- Updating only the primary-side fields (and the channel) preserves the
invariant, given the re-established obligations. -/
theorem sysInv_prim (s : Sys) (pa ps rc pb pk C : Bool)
    (g1 : ps = true → pa = true)
    (g3 : pk = true → rc = true → pa = true → s.sec.serving = false)
    (g4 : (pa && ps && s.sec.alive && s.sec.serving) = false)
    (h2 : s.sec.serving = true → s.sec.marker = true) :
    SysInv { s with primAlive := pa, primServing := ps, reclaiming := rc,
                    pibSent := pb, pibAcked := pk, chan := C } := by
  refine ⟨?_, ?_, ?_, ?_⟩
  · show ps = true → pa = true
    exact g1
  · show s.sec.serving = true → s.sec.marker = true
    exact h2
  · show pk = true → rc = true → pa = true → s.sec.serving = false
    exact g3
  · show (pa && ps && s.sec.alive && s.sec.serving) = false
    exact g4

/-- Preservation: every honest, fault-free interleaving step maintains the
invariant. -/
theorem sysInv_step (p : Params) (s : Sys) (e : Ev)
    (h : SysInv s) (hh : honestStep p s e = true) (hf : faultFree e = true) :
    SysInv (stepSys p s e) := by
  obtain ⟨h1, h2, h3, h4⟩ := h
  cases e with
  | secTick o =>
    by_cases hal : s.sec.alive = true
    · have hstep : stepSys p s (.secTick o)
          = { s with
                sec := (secTick p.delay p.secondaryDelay p.deadline p.primary o s.sec).1,
                chan := s.chan &&
                  (secTick p.delay p.secondaryDelay p.deadline p.primary o s.sec).1.secSock } := by
        simp [stepSys, hal]
      rw [hstep]
      rcases secTick_cases p.delay p.secondaryDelay p.deadline p.primary o s.sec with
        ⟨e1, e2, e3⟩ | ⟨c1, c2, c3, c4, c5, c6, c7, c8⟩
      · exact sysInv_sec_same s _ _ ⟨h1, h2, h3, h4⟩ e1 e3
          (fun hx => secTick_alive_mono _ _ _ _ _ _ hx)
      · -- the successful takeover arm ran: honesty says the primary is down
        have hfi : fenceInvoked s (.secTick o) = true := by
          simp [fenceInvoked, c1, c2, c3, c4]
        have hpa : s.primAlive = false := by
          simp only [honestStep, hfi, fenceOutcome, c5, Bool.true_and, Bool.not_true,
            Bool.false_or, Bool.not_eq_true'] at hh
          exact hh
        have hmw : o.markerWriteOk = true := hf
        refine sysInv_sec_act s _ _ ⟨h1, h2, h3, h4⟩ hpa ?_
        intro _; rw [c8, hmw]; rfl
    · have hstep : stepSys p s (.secTick o) = s := by simp [stepSys, hal]
      rw [hstep]; exact ⟨h1, h2, h3, h4⟩
  | secCtrl tag rr allocOk now =>
    simp only [stepSys]
    split_ifs with hg hs
    · exact sysInv_sec_same s _ _ ⟨h1, h2, h3, h4⟩ rfl rfl (fun hx => hx)
    · have hp : primarySendable tag = true := (andE hg).2
      obtain ⟨q1, q2, _, q4⟩ := reqFailover_sendable_role p.hostid now 0 tag s.sec hp
      exact sysInv_sec_same s _ _ ⟨h1, h2, h3, h4⟩ q1 q2 q4
    · exact ⟨h1, h2, h3, h4⟩
  | secRegReply i =>
    simp only [stepSys]
    split_ifs with hg
    · exact sysInv_sec_same s _ _ ⟨h1, h2, h3, h4⟩ rfl rfl
        (fun _ => (andE (andE hg).1).1)
    · exact ⟨h1, h2, h3, h4⟩
  | primAcceptRegister =>
    simp only [stepSys]
    split_ifs with hg
    · refine ⟨?_, ?_, ?_, ?_⟩
      · show s.primServing = true → s.primAlive = true
        exact h1
      · show s.sec.serving = true → s.sec.marker = true
        exact h2
      · show s.pibAcked = true → s.reclaiming = true → s.primAlive = true →
          s.sec.serving = false
        exact h3
      · show (s.primAlive && s.primServing && s.sec.alive && s.sec.serving) = false
        exact h4
    · exact ⟨h1, h2, h3, h4⟩
  | primCrash =>
    simp only [stepSys]
    split_ifs with hg
    · exact sysInv_prim s false false false false s.pibAcked false
        (fun hx => hx) (fun _ _ hc => absurd hc (by simp)) (by simp) h2
    · exact ⟨h1, h2, h3, h4⟩
  | primRecycleOnMarker =>
    simp only [stepSys]
    split_ifs with hg
    · exact sysInv_prim s false false s.reclaiming s.pibSent s.pibAcked false
        (fun hx => hx) (fun _ _ hc => absurd hc (by simp)) (by simp) h2
    · exact ⟨h1, h2, h3, h4⟩
  | primRestartReclaim =>
    simp only [stepSys]
    split_ifs with hg
    · exact sysInv_prim s true false true false false s.chan
        (fun _ => rfl) (fun ha _ _ => absurd ha (by simp)) (by simp) h2
    · exact ⟨h1, h2, h3, h4⟩
  | primBootActive =>
    simp only [stepSys]
    split_ifs with hg
    · have hnm : s.sec.marker = false := by
        have hm := (andE hg).2
        cases hx : s.sec.marker
        · rfl
        · rw [hx] at hm; exact absurd hm (by simp)
      have hns : s.sec.serving = false := by
        cases hx : s.sec.serving
        · rfl
        · have := h2 hx; rw [hnm] at this; exact absurd this (by simp)
      exact sysInv_prim s true true false s.pibSent s.pibAcked s.chan
        (fun _ => rfl) (fun _ hb _ => absurd hb (by simp)) (by simp [hns]) h2
    · exact ⟨h1, h2, h3, h4⟩
  | primSendPIB =>
    simp only [stepSys]
    split_ifs with hg
    · refine ⟨?_, ?_, ?_, ?_⟩
      · show s.primServing = true → s.primAlive = true
        exact h1
      · show s.sec.serving = true → s.sec.marker = true
        exact h2
      · show s.pibAcked = true → s.reclaiming = true → s.primAlive = true →
          s.sec.serving = false
        exact h3
      · show (s.primAlive && s.primServing && s.sec.alive && s.sec.serving) = false
        exact h4
    · exact ⟨h1, h2, h3, h4⟩
  | secHandlePIB now =>
    simp only [stepSys]
    split_ifs with hg
    · rw [reqFailover_pib]
      refine ⟨?_, ?_, ?_, ?_⟩
      · show s.primServing = true → s.primAlive = true
        exact h1
      · show false = true → false = true
        exact fun hx => hx
      · show true = true → s.reclaiming = true → s.primAlive = true → false = false
        exact fun _ _ _ => rfl
      · show (s.primAlive && s.primServing && s.sec.alive && false) = false
        simp
    · exact ⟨h1, h2, h3, h4⟩
  | primGoActive =>
    simp only [stepSys]
    split_ifs with hg
    · have hpk := (andE hg).2
      have hpa := (andE (andE hg).1).1
      have hrc := (andE (andE hg).1).2
      have hns : s.sec.serving = false := h3 hpk hrc hpa
      exact sysInv_prim s s.primAlive true false s.pibSent s.pibAcked s.chan
        (fun _ => hpa) (fun _ hb _ => absurd hb (by simp)) (by simp [hns]) h2
    · exact ⟨h1, h2, h3, h4⟩

/-- Along any honest, fault-free run from an invariant state, no reached
state has both processes reporting active. -/
theorem allSafe_of_inv (p : Params) :
    ∀ (tr : List Ev) (s : Sys), SysInv s → honestRun p s tr = true →
      tr.all faultFree = true → allSafe p s tr = true
  | [], s, hi, _, _ => by
    simp only [allSafe, Bool.not_eq_true']
    exact hi.2.2.2
  | e :: t, s, hi, hh, hf => by
    simp only [honestRun, Bool.and_eq_true] at hh
    simp only [List.all_cons, Bool.and_eq_true] at hf
    simp only [allSafe, Bool.and_eq_true, Bool.not_eq_true']
    exact ⟨hi.2.2.2,
      allSafe_of_inv p t _ (sysInv_step p s e hi hh.1 hf.1) hh.2 hf.2⟩

/-! ## The claims -/

/-- C1, counterexample to the claim as stated: with the fencing hook
literally honest (it returns *ok* only when the peer is down - here it is
absent and never returns ok at all), a network partition lets the
secondary pass its takeover deadline, fence vacuously, and go active
while the primary is still alive and active: both processes report the
active role. -/
theorem claim_C1_counterexample :
    literalHonestRun cexParams (initSys 0) cexTrace = true ∧
    bothActive (runSys cexParams (initSys 0) cexTrace) = true := by decide

/-- C1, amended: if the fencing step lets the takeover proceed (ok or
absent) only when the peer process is down, and the marker-file writes
succeed, then at no point of any interleaved run do both processes report
the active role; and the secondary raises its process-wide active flag
only in state TAKEOV, after the final dial failed and the hook returned
ok or absent. -/
theorem claim_C1 (p : Params) (t0 : Int) (tr : List Ev)
    (hh : honestRun p (initSys t0) tr = true)
    (hf : tr.all faultFree = true) :
    allSafe p (initSys t0) tr = true ∧
    (∀ (s : Sys) (o : TickO),
      (stepSys p s (.secTick o)).sec.activeFlag = true →
      s.sec.activeFlag = true ∨
        (s.sec.state = .takeov ∧ o.dialOk = false ∧
         (checkAndInvokeStonith p.primary o.fence).proceeds = true)) := by
  constructor
  · exact allSafe_of_inv p tr _ (sysInv_init t0) hh hf
  · intro s o hflag
    by_cases hal : s.sec.alive = true
    · have hstep : stepSys p s (.secTick o)
          = { s with
                sec := (secTick p.delay p.secondaryDelay p.deadline p.primary o s.sec).1,
                chan := s.chan &&
                  (secTick p.delay p.secondaryDelay p.deadline p.primary o s.sec).1.secSock } := by
        simp [stepSys, hal]
      rw [hstep] at hflag
      have hflag' :
          (secTick p.delay p.secondaryDelay p.deadline p.primary o s.sec).1.activeFlag
            = true := hflag
      rcases secTick_cases p.delay p.secondaryDelay p.deadline p.primary o s.sec with
        ⟨_, e2, _⟩ | ⟨_, _, c3, c4, c5, _, _, _⟩
      · left; rw [← e2]; exact hflag'
      · right; exact ⟨c3, c4, c5⟩
    · have hstep : stepSys p s (.secTick o) = s := by simp [stepSys, hal]
      rw [hstep] at hflag
      left; exact hflag

/-- C1, witness for the amended theorem at a concrete honest run. -/
theorem claim_C1_witness :
    allSafe cexParams (initSys 0) [.secTick witTick] = true :=
  (claim_C1 cexParams 0 [.secTick witTick] (by decide) (by decide)).1

/-- C2, counterexample to the claim as stated: a REGISTER arriving while
a peer is connected is rejected with the generic PBSE_SYSTEM code (the
handler's `if (err) req_reject(PBSE_SYSTEM, 0, preq)` ignores the
PBSE_OBJBUSY it stored in err), not with the busy code; the context is
untouched. -/
theorem claim_C2_counterexample :
    (reqFailover 11 0 5 true .register regBusyCtx).2 = [.reject PBSE_SYSTEM] ∧
    (reqFailover 11 0 5 true .register regBusyCtx).1 = regBusyCtx ∧
    FoAct.reject PBSE_OBJBUSY ∉ (reqFailover 11 0 5 true .register regBusyCtx).2 := by
  decide

/-- C2, amended: a REGISTER dispatched while the peer connection handle
is present is rejected with the system-error reply code (the busy
condition is only flagged internally), and the whole context - the
existing peer's handle, connection flags and callbacks - is left
unchanged. -/
theorem claim_C2 (hostid : Nat) (now : Int) (nh : Nat) (c : FoCtx) (k : Nat)
    (hpeer : c.secondaryConnection = some k) :
    reqFailover hostid now nh true .register c = (c, [.reject PBSE_SYSTEM]) := by
  simp [reqFailover, hpeer]

/-- C2, witness: the amended theorem at the concrete busy context. -/
theorem claim_C2_witness :
    reqFailover 11 0 5 true .register regBusyCtx
      = (regBusyCtx, [.reject PBSE_SYSTEM]) :=
  claim_C2 11 0 5 regBusyCtx 3 rfl

/-- C3: an active secondary (marker on disk, serving) that receives
SECD_GO_INACTIVE moves to INACT but the handler neither unlinks the
active-marker file nor lowers the active role - the marker outlives
the role, against the claimed if-and-only-if invariant. -/
theorem claim_C3 :
    (reqFailover 11 0 5 true .secdGoInactive activeCtx).1.sec.state = .inact ∧
    (reqFailover 11 0 5 true .secdGoInactive activeCtx).1.sec.marker = true ∧
    (reqFailover 11 0 5 true .secdGoInactive activeCtx).1.sec.serving = true ∧
    (reqFailover 11 0 5 true .secdGoInactive activeCtx).2
        = [.setState .inact, .replyAck] ∧
    FoAct.unlinkMarker ∉ (reqFailover 11 0 5 true .secdGoInactive activeCtx).2 := by
  decide

/-- C4: EOF on the register-reply read while the secondary state is
REGSENT moves the state directly to TAKEOV, with no other effect: no
exit, no file write, hd_time, goidle_ack and the read callback
unchanged. -/
theorem claim_C4 (ownHid : Nat) (ga : Bool) (hdT : Int) (i : RegReplyIn)
    (hrc : i.rc = .eodR) :
    readRegReply ownHid ga .regsent hdT i
      = { state := .takeov, hdTime := hdT, goidleAck := ga,
          cnFunc := .readRegReply, writes := [], exited := none } := by
  simp [readRegReply, hrc]

/-- C4, witness at a concrete EOF reply. -/
theorem claim_C4_witness :
    readRegReply 7 false .regsent 42 eodIn
      = { state := .takeov, hdTime := 42, goidleAck := false,
          cnFunc := .readRegReply, writes := [], exited := none } :=
  claim_C4 7 false 42 eodIn rfl

/-- C5: a successful registration (ok reply with a text payload) writes
license.fo exactly once, created with truncation at mode 0600, with
content the payload parsed as a decimal hostid XORed with the
secondary's own hostid; the handler rewires the socket to the request
dispatcher, stamps hd_time with now and moves to HANDSK.  When the
payload is the primary hostid's decimal digit string the content is
hostid_primary XOR hostid_secondary. -/
theorem claim_C5 (ownHid : Nat) (hdT : Int) (i : RegReplyIn) (ds : List Nat)
    (st : SecState)
    (hrc : i.rc = .okR) (hbc : i.brpCode = 0) (hch : i.choice = .textChoice)
    (hpl : i.payload = some ds) (hcf : i.connFound = true)
    (hop : i.openOk = true) (hwr : i.writeOk = true) :
    readRegReply ownHid false st hdT i
      = { state := .handsk, hdTime := i.now, goidleAck := false,
          cnFunc := .readFoRequest,
          writes := [{ creatTrunc := true, mode := 0o600,
                       content := Nat.ofDigits 10 ds ^^^ ownHid }],
          exited := none } ∧
    (∀ hidP : Nat, ds = Nat.digits 10 hidP →
       Nat.ofDigits 10 ds ^^^ ownHid = hidP ^^^ ownHid) := by
  constructor
  · simp [readRegReply, hrc, hbc, hch, hpl, hcf, hop, hwr]
  · intro hidP hds
    rw [hds, Nat.ofDigits_digits]

/-- C5, witness: registering against the reply "12" with own hostid 5
writes the single value 12 XOR 5. -/
theorem claim_C5_witness :
    (readRegReply 5 false .regsent 0 okIn
      = { state := .handsk, hdTime := 55, goidleAck := false,
          cnFunc := .readFoRequest,
          writes := [{ creatTrunc := true, mode := 0o600,
                       content := Nat.ofDigits 10 [2, 1] ^^^ 5 }],
          exited := none }) ∧
    (∀ hidP : Nat, [2, 1] = Nat.digits 10 hidP →
       Nat.ofDigits 10 [2, 1] ^^^ 5 = hidP ^^^ 5) :=
  claim_C5 5 0 okIn [2, 1] .regsent rfl rfl rfl rfl rfl rfl rfl

/-- C6, counterexample to the claim as stated: on SECD_TAKEOVER the
handler's first action is the 10-second sleep, and the state is set to
TAKEOV before the acknowledgement is sent - not reply first. -/
theorem claim_C6_counterexample :
    (reqFailover 11 0 5 true .secdTakeOver takeCtx).2
        = [.sleepF 10, .setState .takeov, .replyAck, .waitF 600, .closeSock] ∧
    (reqFailover 11 0 5 true .secdTakeOver takeCtx).2.head? ≠ some .replyAck := by
  decide

/-- C6, amended: on SECD_TAKEOVER the secondary first sleeps about 10
seconds (letting the primary finish its teardown), then moves to state
TAKEOV, then sends the acknowledgement, then waits up to 600 seconds for
the primary to close the connection and closes its socket. -/
theorem claim_C6 (hostid : Nat) (now : Int) (nh : Nat) (c : FoCtx)
    (hsock : c.sec.secSock = true) :
    reqFailover hostid now nh true .secdTakeOver c
      = ({ c with sec := { c.sec with state := .takeov, secSock := false } },
         [.sleepF 10, .setState .takeov, .replyAck, .waitF 600, .closeSock]) := by
  simp [reqFailover, hsock]

/-- C6, witness at the concrete steady-state context. -/
theorem claim_C6_witness :
    reqFailover 11 0 5 true .secdTakeOver takeCtx
      = ({ takeCtx with
             sec := { takeCtx.sec with state := .takeov, secSock := false } },
         [.sleepF 10, .setState .takeov, .replyAck, .waitF 600, .closeSock]) :=
  claim_C6 11 0 5 takeCtx rfl

/-- C7: in NOHSK, when the liveness stat succeeds with the mtime equal to
the remembered mtime, the dispatch moves to TAKEOV exactly when time_now
is strictly greater than mytime + secondary_delay; at exactly
mytime + secondary_delay the state stays NOHSK. -/
theorem claim_C7 (d sd dl : Int) (pr : Option String) (o : TickO) (m : SecM)
    (hst : m.state = .nohsk) (hstat : o.statRes = some m.sbtime) :
    ((secSwitch d sd dl pr o m).1.state = .takeov ↔
        o.timeNow > m.mytime + sd) ∧
    (o.timeNow = m.mytime + sd →
        (secSwitch d sd dl pr o m).1.state = .nohsk) := by
  constructor
  · simp only [secSwitch, hst, hstat, lt_irrefl, if_false]
    split_ifs with hc
    · simp [hc]
    · simp [hst, hc]
  · intro he
    simp only [secSwitch, hst, hstat, lt_irrefl, if_false]
    split_ifs with hc
    · rw [he] at hc; exact absurd hc (lt_irrefl _)
    · exact hst

/-- C7, witness: with secondary_delay 30, remembered observation at local
time 100 and stagnant mtime, time 131 is a takeover and time 130 is
characterised as not yet one. -/
theorem claim_C7_witness :
    (((secSwitch 1 30 999 none nohskTick nohskM).1.state = .takeov ↔
        (131 : Int) > 100 + 30) ∧
     ((131 : Int) = 100 + 30 →
        (secSwitch 1 30 999 none nohskTick nohskM).1.state = .nohsk)) :=
  claim_C7 1 30 999 none nohskTick nohskM rfl rfl

/-- C8: the takeover deadline is start + 5 minutes + secondary_delay
(computed once by the startup code, for a non-negative configured
delay); in NOCONN a failed dial moves to TAKEOV exactly when the delay
argument is -1 or time_now is strictly past the deadline, otherwise the
machine sleeps 10 seconds and stays in NOCONN; in IDLE a failed dial
never triggers takeover. -/
theorem claim_C8 (cfg start : Int) (hcfg : 0 ≤ cfg)
    (d sd dl : Int) (pr : Option String) (o : TickO) (m : SecM)
    (hdial : o.dialOk = false) :
    (beSecondarySetup cfg start).2 = start + 60 * 5 + cfg ∧
    (m.state = .noconn →
      (((secSwitch d sd dl pr o m).1.state = .takeov) ↔
        (d = -1 ∨ o.timeNow > dl))) ∧
    (m.state = .noconn → ¬(d = -1 ∨ o.timeNow > dl) →
      ((secSwitch d sd dl pr o m).1.state = .noconn ∧
       TAct.sleepT 10 ∈ (secSwitch d sd dl pr o m).2)) ∧
    (m.state = .idle → (secSwitch d sd dl pr o m).1.state ≠ .takeov) := by
  refine ⟨?_, ?_, ?_, ?_⟩
  · have : cfg ≠ -1 := by omega
    simp [beSecondarySetup, this]
  · intro hst
    simp only [secSwitch, hst, hdial, Bool.not_false, if_true]
    split_ifs with hc
    · simp_all
    · simp_all
  · intro hst hnc
    simp only [secSwitch, hst, hdial, Bool.not_false, if_true]
    split_ifs with hc
    · exact absurd hc.2 hnc
    · simp
  · intro hst
    simp only [secSwitch, hst, hdial, Bool.not_false, if_true]
    split_ifs <;> simp_all

/-- C8, witness: deadline formula at start 0 and delay 30; concrete
NOCONN dial failure past the deadline; concrete IDLE dial failure. -/
theorem claim_C8_witness :
    ((beSecondarySetup 30 0).2 = 0 + 60 * 5 + 30 ∧
     (noconnM.state = .noconn →
       (((secSwitch 30 30 330 none badCapTick noconnM).1.state = .takeov) ↔
         ((30 : Int) = -1 ∨ (400 : Int) > 330))) ∧
     (noconnM.state = .noconn → ¬((30 : Int) = -1 ∨ (400 : Int) > 330) →
       ((secSwitch 30 30 330 none badCapTick noconnM).1.state = .noconn ∧
        TAct.sleepT 10 ∈ (secSwitch 30 30 330 none badCapTick noconnM).2)) ∧
     (noconnM.state = .idle →
       (secSwitch 30 30 330 none badCapTick noconnM).1.state ≠ .takeov)) :=
  claim_C8 30 0 (by decide) 30 30 330 none badCapTick noconnM rfl

/-- C9, counterexample to the claim as stated: the script exists and
exits zero, yet the hook reports failed, because the read-back of the
captured output file fails after a successful run. -/
theorem claim_C9_counterexample :
    checkAndInvokeStonith (some "prim.example") badCapEnv = .failed ∧
    checkAndInvokeStonith (some "prim.example") badCapEnv ≠ .ok := by decide

/-- C9, amended: the hook returns absent exactly when no script is
installed (stat fails with ENOENT); failed exactly when a script path
was not absent and either the script exited non-zero or the captured
output could not be read back (open+fstat succeeded but malloc or read
failed); ok exactly otherwise.  In state TAKEOV with the final dial
failed, a failed hook leaves the state in TAKEOV with the active flag
untouched and a 10-second sleep; ok or absent raises the active flag and
returns from the loop. -/
theorem claim_C9 (n : String) (e : StonithEnv)
    (d sd dl : Int) (o : TickO) (m : SecM)
    (hst : m.state = .takeov) (hdial : o.dialOk = false) :
    (checkAndInvokeStonith (some n) e = .absent ↔ e.script = .enoent) ∧
    (checkAndInvokeStonith (some n) e = .failed ↔
       (e.script ≠ .enoent ∧ (badCapture e = true ∨ e.exitCode ≠ 0))) ∧
    (checkAndInvokeStonith (some n) e = .ok ↔
       (e.script ≠ .enoent ∧ badCapture e = false ∧ e.exitCode = 0)) ∧
    (checkAndInvokeStonith (some n) o.fence = .failed →
       ((secSwitch d sd dl (some n) o m).1.state = .takeov ∧
        (secSwitch d sd dl (some n) o m).1.activeFlag = m.activeFlag ∧
        (secSwitch d sd dl (some n) o m).1.serving = m.serving ∧
        TAct.sleepT 10 ∈ (secSwitch d sd dl (some n) o m).2)) ∧
    (checkAndInvokeStonith (some n) o.fence ≠ .failed →
       ((secSwitch d sd dl (some n) o m).1.activeFlag = true ∧
        (secSwitch d sd dl (some n) o m).1.done = true)) := by
  refine ⟨?_, ?_, ?_, ?_, ?_⟩
  · simp only [checkAndInvokeStonith]
    split_ifs <;> simp_all
  · simp only [checkAndInvokeStonith]
    split_ifs <;> simp_all
  · simp only [checkAndInvokeStonith]
    split_ifs <;> simp_all
  · intro hfa
    simp only [secSwitch, hst, hdial, Bool.not_false, if_true, hfa, if_pos rfl]
    split_ifs <;> simp_all
  · intro hfa
    have : ¬(checkAndInvokeStonith (some n) o.fence = .failed) := hfa
    simp only [secSwitch, hst, hdial, Bool.not_false, if_true]
    split_ifs <;> simp_all

/-- C9, witness: the concrete failing-capture environment in a concrete
TAKEOV tick. -/
theorem claim_C9_witness :
    ((checkAndInvokeStonith (some "p") badCapEnv = .absent ↔
        badCapEnv.script = .enoent) ∧
     (checkAndInvokeStonith (some "p") badCapEnv = .failed ↔
        (badCapEnv.script ≠ .enoent ∧
         (badCapture badCapEnv = true ∨ badCapEnv.exitCode ≠ 0))) ∧
     (checkAndInvokeStonith (some "p") badCapEnv = .ok ↔
        (badCapEnv.script ≠ .enoent ∧ badCapture badCapEnv = false ∧
         badCapEnv.exitCode = 0)) ∧
     (checkAndInvokeStonith (some "p") badCapTick.fence = .failed →
        ((secSwitch 30 30 330 (some "p") badCapTick takeovM).1.state = .takeov ∧
         (secSwitch 30 30 330 (some "p") badCapTick takeovM).1.activeFlag
             = takeovM.activeFlag ∧
         (secSwitch 30 30 330 (some "p") badCapTick takeovM).1.serving
             = takeovM.serving ∧
         TAct.sleepT 10 ∈ (secSwitch 30 30 330 (some "p") badCapTick takeovM).2)) ∧
     (checkAndInvokeStonith (some "p") badCapTick.fence ≠ .failed →
        ((secSwitch 30 30 330 (some "p") badCapTick takeovM).1.activeFlag = true ∧
         (secSwitch 30 30 330 (some "p") badCapTick takeovM).1.done = true))) :=
  claim_C9 "p" badCapEnv 30 30 330 badCapTick takeovM rfl rfl

/-- C10: the secondary's request reader, on EOF, closes the socket and
moves to NOHSK unless the state is INACT or NOCONN (left unchanged); on
any other read or decode failure it closes the socket and moves to
NOCONN unconditionally; in both cases the request is freed and no
dispatch (hence no reply) happens. -/
theorem claim_C10 (st : SecState) :
    (readFoRequest true .eofRead st
       = { state := if st = .inact ∨ st = .noconn then st else .nohsk,
           sockCleared := true, acts := [.closeC, .freeReq] }) ∧
    (readFoRequest true .errRead st
       = { state := .noconn, sockCleared := true,
           acts := [.closeC, .freeReq] }) ∧
    RAct.dispatch ∉ (readFoRequest true .eofRead st).acts ∧
    RAct.dispatch ∉ (readFoRequest true .errRead st).acts := by
  refine ⟨rfl, rfl, ?_, ?_⟩ <;> simp [readFoRequest]

end Failover
